import Mathlib

/-!
Verification of the query-composition and response-caching layer of the
`backend_burger` repository, as a shallow embedding in Lean 4.

Python source files embedded here:
* `src/schemas/requests.py` — `PaginationInput`, `FilterSchema`, `SortSchema`
  and their `parse_filter_input` / `parse_sort_input` static methods;
* `src/config/constants/app.py` — operation tables and limits;
* `src/utils/services.py` — `serialize_response`, `cache_data`,
  `get_cached_data`, `delete_cached_data`, `_build_nested_query`;
* `src/utils/routers.py` — `get_or_cache_serialized_entity`,
  `create_pagination_response`;
* `src/routers/users.py` — the cache effects of `update_user` and the
  transaction structure of `delete_user`;
* `src/services/poe.py` — the price-history truncation loop of `get_items`.

Strings model Python `str` (and serialized `bytes` payloads); `Nat` models
the non-negative integers that appear (counts, pages, seconds).
-/

namespace BackendBurger

/-! ## Python string primitives used by the parsers -/

/-- Helper for `pySplit`: walks the character list, cutting at the
separator.  Mirrors CPython `str.split(sep)` semantics, where an empty
string yields one empty part and a trailing separator yields a trailing
empty part. -/
def splitCharAux (sep : Char) : List Char → List Char → List (List Char)
  | [], cur => [cur.reverse]
  | c :: cs, cur =>
    if c = sep then cur.reverse :: splitCharAux sep cs []
    else splitCharAux sep cs (c :: cur)

/-- Python `s.split(sep)` for a one-character separator. -/
def pySplit (sep : Char) (s : String) : List String :=
  (splitCharAux sep s.toList []).map List.asString

/-- ASCII lower-casing of one character, as `str.lower` acts on the
ASCII range (all field/operation tokens in the application are ASCII). -/
def asciiLower (c : Char) : Char :=
  if 'A' ≤ c ∧ c ≤ 'Z' then Char.ofNat (c.toNat + 32) else c

/-- Python `s.lower()` restricted to ASCII, applied by the
`lowercase_validator` before-validator on `field` and `operation`. -/
def pyLower (s : String) : String :=
  (s.toList.map asciiLower).asString

/-! ## Constants from `src/config/constants/app.py` -/

def ITEMS_PER_PAGE : Nat := 100

def MAXIMUM_ITEMS_PER_PAGE : Nat := 500

def USER_CACHE_KEY : String := "users"

def SINGLE_USER_CACHE_DURATION : Nat := 60 * 60

def USERS_CACHE_DURATION : Nat := 5 * 60

/-- The `FILTER_OPERATION` literal type, as the list of its admissible
string values. -/
def FILTER_OPERATION : List String := ["=", "!=", ">", ">=", "<", "<=", "like"]

/-- The `SORT_OPERATION` literal type. -/
def SORT_OPERATION : List String := ["asc", "desc"]

/-- `NESTED_FILTER_OPERATION_MAP` from `src/config/constants/app.py`,
an association list from filter operation to raw MongoDB operator. -/
def NESTED_FILTER_OPERATION_MAP : List (String × String) :=
  [("=", "$eq"), (">", "$gt"), (">=", "$gte"), ("<", "$lt"), ("<=", "$lte")]

/-! ## `FilterSchema` / `SortSchema` (`src/schemas/requests.py`) -/

/-- `FilterSchema`: a parsed filter clause.  `field` and `operation` are
stored lower-cased by the pydantic before-validators. -/
structure FilterSchema where
  field : String
  operation : String
  value : String
deriving Repr, DecidableEq

/-- Pydantic construction of a `FilterSchema`: lower-cases `field` and
`operation`, requires `operation` to be in the `FILTER_OPERATION` literal
and `value` length in `[1, 200]`; `none` models a raised
`ValidationError`. -/
def mkFilterSchema (field operation value : String) : Option FilterSchema :=
  if pyLower operation ∈ FILTER_OPERATION ∧ 1 ≤ value.length ∧ value.length ≤ 200 then
    some ⟨pyLower field, pyLower operation, value⟩
  else
    none

/-- `SortSchema`: a parsed sort clause (`operation` is `"asc"` or
`"desc"`). -/
structure SortSchema where
  field : String
  operation : String
deriving Repr, DecidableEq

/-- Python `field, operation, value = query_param.split(":")`: succeeds
exactly when the split has three parts, otherwise a `ValueError` is
raised by the unpacking (modelled as `none`). -/
def splitColon3 (s : String) : Option (String × String × String) :=
  match pySplit ':' s with
  | [a, b, c] => some (a, b, c)
  | _ => none

/-- A raised `ValueError("Invalid input. ...")`. -/
inductive ParseError where
  | invalidInput
deriving Repr, DecidableEq

/-- The loop body of `FilterSchema.parse_filter_input`, accumulating
parsed clauses in reverse.  Faithfully mirrors the control flow of the
source: an unpacking failure or constructor failure sets
`valid_params = False` and reaches the in-loop `raise`; an
unrecognized operation sets the flag but then `break`s out of the loop,
skipping the `raise` and falling through to `return filter_params` —
the partial accumulator is returned. -/
def parseFilterLoop : List String → List FilterSchema → Except ParseError (List FilterSchema)
  | [], acc => .ok acc.reverse
  | qp :: rest, acc =>
    match splitColon3 qp with
    | none => .error .invalidInput
    | some (field, operation, value) =>
      if operation ∈ FILTER_OPERATION then
        match mkFilterSchema field operation value with
        | none => .error .invalidInput
        | some fs => parseFilterLoop rest (fs :: acc)
      else
        .ok acc.reverse

/-- `FilterSchema.parse_filter_input`: `None` input returns `None`
(`.ok none`); otherwise runs the parsing loop. -/
def parse_filter_input (query_params : Option (List String)) :
    Except ParseError (Option (List FilterSchema)) :=
  match query_params with
  | none => .ok none
  | some qps => (parseFilterLoop qps []).map some

/-- The loop body of `SortSchema.parse_sort_input`.  `query_param[0]` on
an empty token raises `IndexError`, caught and converted to the in-loop
`raise`; a leading `-` yields a descending clause on the rest of the
token; a leading alphabetic character yields an ascending clause on the
whole token; any other leading character sets `valid_params = False`
and `break`s, skipping the `raise` and returning the partial
accumulator. -/
def parseSortLoop : List String → List SortSchema → Except ParseError (List SortSchema)
  | [], acc => .ok acc.reverse
  | qp :: rest, acc =>
    match qp.toList with
    | [] => .error .invalidInput
    | c :: cs =>
      if c = '-' then
        parseSortLoop rest (⟨pyLower (List.asString cs), "desc"⟩ :: acc)
      else if c.isAlpha then
        parseSortLoop rest (⟨pyLower qp, "asc"⟩ :: acc)
      else
        .ok acc.reverse

/-- `SortSchema.parse_sort_input`. -/
def parse_sort_input (query_params : Option (List String)) :
    Except ParseError (Option (List SortSchema)) :=
  match query_params with
  | none => .ok none
  | some qps => (parseSortLoop qps []).map some

/-! ## JSON values and the response envelope (`src/schemas/responses.py`) -/

/-- JSON values, the shape of pydantic `model_dump` output fed to
`orjson.dumps`. -/
inductive Json where
  | null
  | bool (b : Bool)
  | num (n : Int)
  | str (s : String)
  | arr (elems : List Json)
  | obj (fields : List (String × Json))
deriving Repr

mutual

/-- A deterministic JSON encoder standing in for `orjson.dumps`. -/
def encodeJson : Json → String
  | .null => "null"
  | .bool b => if b then "true" else "false"
  | .num n => toString n
  | .str s => "\"" ++ s ++ "\""
  | .arr elems => "[" ++ encodeJsonArr elems ++ "]"
  | .obj fields => "\x7b" ++ encodeJsonObj fields ++ "\x7d"

/-- Encodes the element list of a JSON array, comma-separated. -/
def encodeJsonArr : List Json → String
  | [] => ""
  | [x] => encodeJson x
  | x :: y :: xs => encodeJson x ++ "," ++ encodeJsonArr (y :: xs)

/-- Encodes the field list of a JSON object, comma-separated. -/
def encodeJsonObj : List (String × Json) → String
  | [] => ""
  | [(k, v)] => "\"" ++ k ++ "\":" ++ encodeJson v
  | (k, v) :: f :: fs => "\"" ++ k ++ "\":" ++ encodeJson v ++ "," ++ encodeJsonObj (f :: fs)

end

/-- `BaseResponse`: the application's response envelope.  `key` carries
the optional response-object key (it is excluded from `model_dump` by
`Field(exclude=True)`). -/
structure BaseResponse where
  data : Json
  error : Option Json
  key : Option String
deriving Repr

/-- `BaseResponse.model_dump()`: a dict with `data` and `error` (the
`key` field is excluded). -/
def model_dump (resp : BaseResponse) : Json :=
  .obj [("data", resp.data), ("error", match resp.error with | none => .null | some e => e)]

/-- The `BaseResponse[T, E] | bytes` argument type of
`serialize_response`. -/
inductive ResponseOrBytes where
  | response (resp : BaseResponse)
  | bytes (b : String)
deriving Repr

/-- `serialize_response` from `src/utils/services.py`: serializes
`BaseResponse`s with `orjson.dumps(response.model_dump())`, returns
byte payloads as-is. -/
def serialize_response : ResponseOrBytes → String
  | .response resp => encodeJson (model_dump resp)
  | .bytes b => b

/-! ## The Redis cache model and wrappers (`src/utils/services.py`) -/

/-- One key-value pair held by the cache store, with an optional
absolute expiry instant (set from `SET ... EX seconds`). -/
structure RedisEntry where
  key : String
  val : String
  expireAt : Option Nat
deriving Repr, DecidableEq

/-- The remote cache store: its entries plus a transport-fault flag;
`fail = some msg` makes every client call raise `RedisError(msg)`. -/
structure RedisState where
  entries : List RedisEntry
  fail : Option String
deriving Repr, DecidableEq

/-- The value visible under `key` at instant `now`: the stored value if
the entry exists and has not expired. -/
def redisLookup (r : RedisState) (now : Nat) (key : String) : Option String :=
  match r.entries.find? (fun e => e.key = key) with
  | none => none
  | some e =>
    match e.expireAt with
    | none => some e.val
    | some t => if now < t then some e.val else none

/-- Client `GET key`. -/
def redis_get (r : RedisState) (now : Nat) (key : String) : Except String (Option String) :=
  match r.fail with
  | some m => .error m
  | none => .ok (redisLookup r now key)

/-- Client `SET key val EX ex`: replaces any previous entry under
`key`; `ex = some n` expires the entry `n` seconds from `now`. -/
def redis_set (r : RedisState) (now : Nat) (key val : String) (ex : Option Nat) :
    Except String RedisState :=
  match r.fail with
  | some m => .error m
  | none =>
    .ok ⟨⟨key, val, ex.map (fun n => now + n)⟩ :: r.entries.filter (fun e => e.key ≠ key), r.fail⟩

/-- Client `DEL key`. -/
def redis_del (r : RedisState) (key : String) : Except String RedisState :=
  match r.fail with
  | some m => .error m
  | none => .ok ⟨r.entries.filter (fun e => e.key ≠ key), r.fail⟩

/-- `cache_data` from `src/utils/services.py`: `SET` with expiry; on a
`RedisError` logs `"error setting data in cache: ..."` and re-raises.
The second component is the emitted log lines. -/
def cache_data (key : String) (data : String) (expire_in : Option Nat) (r : RedisState)
    (now : Nat) : Except String RedisState × List String :=
  match redis_set r now key data expire_in with
  | .error e => (.error e, ["error setting data in cache: " ++ e])
  | .ok r' => (.ok r', [])

/-- `get_cached_data` from `src/utils/services.py`: `GET`; on a
`RedisError` logs `"error getting cached data: ..."` and re-raises. -/
def get_cached_data (key : String) (r : RedisState) (now : Nat) :
    Except String (Option String) × List String :=
  match redis_get r now key with
  | .error e => (.error e, ["error getting cached data: " ++ e])
  | .ok v => (.ok v, [])

/-- `delete_cached_data` from `src/utils/services.py`: `DEL`; on a
`RedisError` logs `"error deleting cached data: ..."` and re-raises. -/
def delete_cached_data (key : String) (r : RedisState) :
    Except String RedisState × List String :=
  match redis_del r key with
  | .error e => (.error e, ["error deleting cached data: " ++ e])
  | .ok r' => (.ok r', [])

/-! ## `get_or_cache_serialized_entity` (`src/utils/routers.py`) -/

/-- The result of awaiting `get_entity_function`: either a ready
`BaseResponse` or raw data to be wrapped in one. -/
inductive EntityData where
  | resp (r : BaseResponse)
  | raw (j : Json)
deriving Repr

/-- Errors `get_or_cache_serialized_entity` can raise: a propagated
`RedisError`, or the `assert get_entity_function is not None` failing. -/
inductive GocError where
  | redis (msg : String)
  | assertionError
deriving Repr, DecidableEq

/-- Observable outcome of one `get_or_cache_serialized_entity` call:
the returned payload, the cache state afterwards, and whether
`get_entity_function` was awaited (the compute step ran). -/
structure GocOutcome where
  payload : String
  state : RedisState
  computeAwaited : Bool
deriving Repr

/-- `get_or_cache_serialized_entity` from `src/utils/routers.py`:
cache-aside get-or-compute.  A cache hit returns the stored bytes
verbatim; on a miss the `response` (if given) or the awaited
`get_entity_function` result is serialized, cached under `redis_key`
with expiry `expire_in`, and returned. -/
def get_or_cache_serialized_entity (redis_key : String)
    (get_entity_function : Option EntityData) (response_key : Option String)
    (expire_in : Option Nat) (r : RedisState) (now : Nat)
    (response : Option BaseResponse) : Except GocError GocOutcome :=
  match (get_cached_data redis_key r now).1 with
  | .error e => .error (.redis e)
  | .ok (some serialized_entity) => .ok ⟨serialized_entity, r, false⟩
  | .ok none =>
    match response with
    | some resp =>
      let serialized_entity := serialize_response (.response resp)
      match (cache_data redis_key serialized_entity expire_in r now).1 with
      | .error e => .error (.redis e)
      | .ok r' => .ok ⟨serialized_entity, r', false⟩
    | none =>
      match get_entity_function with
      | none => .error .assertionError
      | some entityData =>
        let serialized_entity :=
          match entityData with
          | .resp br => serialize_response (.response br)
          | .raw j => serialize_response (.response ⟨j, none, response_key⟩)
        match (cache_data redis_key serialized_entity expire_in r now).1 with
        | .error e => .error (.redis e)
        | .ok r' => .ok ⟨serialized_entity, r', true⟩

/-! ## Pagination (`src/schemas/requests.py`, `src/utils/routers.py`) -/

/-- `PaginationInput`: validated `page`/`per_page` query parameters. -/
structure PaginationInput where
  page : Nat
  per_page : Nat
deriving Repr, DecidableEq

/-- FastAPI/pydantic validation of the pagination query parameters:
`page` with `gt=0`, `per_page` with `gt=0, le=MAXIMUM_ITEMS_PER_PAGE`;
`none` models a 422 validation error. -/
def mkPaginationInput (page per_page : Nat) : Option PaginationInput :=
  if 0 < page ∧ 0 < per_page ∧ per_page ≤ MAXIMUM_ITEMS_PER_PAGE then
    some ⟨page, per_page⟩
  else
    none

/-- The `offset` computed field: `(page - 1) * per_page`. -/
def PaginationInput.offset (p : PaginationInput) : Nat := (p.page - 1) * p.per_page

/-- `PaginationResponse`: the pagination metadata block. -/
structure PaginationResponse where
  page : Nat
  per_page : Nat
  total_items : Nat
  total_pages : Nat
deriving Repr, DecidableEq

/-- `math.ceil(total_items / per_page)` over the exact (arbitrary
precision) values: ceiling division on naturals. -/
def math_ceil_div (total_items per_page : Nat) : Nat :=
  (total_items + per_page - 1) / per_page

/-- `create_pagination_response` from `src/utils/routers.py`: builds
the pagination metadata and wraps `data` and the metadata in a
`BaseResponse` under `data_key` / `"pagination"`. -/
def create_pagination_response (data : Json) (total_items : Nat)
    (pagination : PaginationInput) (data_key : String) : PaginationResponse × BaseResponse :=
  let total_pages := math_ceil_div total_items pagination.per_page
  let pagination_response : PaginationResponse :=
    ⟨pagination.page, pagination.per_page, total_items, total_pages⟩
  let response_data : Json :=
    .obj [(data_key, data),
          ("pagination", .obj [("page", .num pagination_response.page),
                               ("per_page", .num pagination_response.per_page),
                               ("total_items", .num total_items),
                               ("total_pages", .num total_pages)])]
  (pagination_response, ⟨response_data, none, none⟩)

/-! ## Nested-field filter queries (`src/utils/services.py`) -/

/-- A value appearing inside a raw BSON filter document: a
`Decimal128` built from the clause's string value, or a plain string. -/
inductive BsonVal where
  | dec128 (v : String)
  | str (s : String)
deriving Repr, DecidableEq

/-- `_build_nested_query` from `src/utils/services.py`, reduced to the
raw filter document it attaches to the query: for non-`like`
operations it looks the operation up in `NESTED_FILTER_OPERATION_MAP`
(a missing key raises `KeyError`, modelled as `none`) and compares
against `Decimal128(value)`; for `like` it builds a case-insensitive
`$regex` match on the string value.  The result pairs the dotted field
path with the inner operator document. -/
def _build_nested_query (entry : FilterSchema) :
    Option (String × List (String × BsonVal)) :=
  if entry.operation ≠ "like" then
    match NESTED_FILTER_OPERATION_MAP.lookup entry.operation with
    | none => none
    | some operation_function => some (entry.field, [(operation_function, .dec128 entry.value)])
  else
    some (entry.field, [("$regex", .str entry.value), ("$options", .str "i")])

/-! ## Cache effects of the user write endpoints (`src/routers/users.py`) -/

/-- The cache step of the `update_user` endpoint: after the database
update returns the fresh `user_base`, the endpoint serializes
`BaseResponse(data=user_base)` and caches it under
`"users:<user_id>"` with the single-user TTL. -/
def update_user_cache_step (user_id : String) (user_base : Json) (r : RedisState)
    (now : Nat) : Except String RedisState :=
  let redis_key := USER_CACHE_KEY ++ ":" ++ user_id
  let serialized_user := serialize_response (.response ⟨user_base, none, none⟩)
  (cache_data redis_key serialized_user (some SINGLE_USER_CACHE_DURATION) r now).1

/-- The primary store visible to the `delete_user` endpoint: the set of
user ids and the blacklisted access tokens. -/
structure DbState where
  users : List String
  blacklisted_tokens : List String
deriving Repr, DecidableEq

/-- The transaction block of the `delete_user` endpoint: inside
`db_session.start_transaction()` it first deletes the cached single-user
key; if that raises, the transaction is aborted and the exception
re-raised (the database is left unchanged, third component carries the
error).  Otherwise the access token is blacklisted and the user deleted,
and the transaction commits. -/
def delete_user_endpoint (user_id access_token : String) (db : DbState) (r : RedisState) :
    DbState × RedisState × Option String :=
  let redis_key := USER_CACHE_KEY ++ ":" ++ user_id
  match (delete_cached_data redis_key r).1 with
  | .error e => (db, r, some e)
  | .ok r' =>
    let db_after_blacklist : DbState := ⟨db.users, access_token :: db.blacklisted_tokens⟩
    let db_after_delete : DbState :=
      ⟨db_after_blacklist.users.filter (fun u => u ≠ user_id),
       db_after_blacklist.blacklisted_tokens⟩
    (db_after_delete, r', none)

/-! ## Item listing post-processing (`src/services/poe.py`) -/

/-- `PriceDatedData`: one dated price point (timestamp modelled as an
epoch instant, the arbitrary-precision decimal price as a rational). -/
structure PriceDatedData where
  timestamp : Nat
  price : Rat
deriving Repr, DecidableEq

/-- `ItemPrice`: price information attached to an item. -/
structure ItemPrice where
  chaos_price : Rat
  divine_price : Rat
  price_history : Option (List PriceDatedData)
  price_history_currency : String
  price_prediction : Option (List PriceDatedData)
  price_prediction_currency : String
  low_confidence : Bool
  listings : Int
deriving Repr, DecidableEq

/-- `ItemBase`: the projected item shape returned by `get_items`. -/
structure ItemBase where
  poe_ninja_id : Int
  id_type : Option String
  name : String
  price_info : Option ItemPrice
  type_ : Option String
  variant : Option String
  icon_url : Option String
  links : Option Int
deriving Repr, DecidableEq

/-- Python `l[-7:]`: the last seven elements (the whole list when it
has at most seven). -/
def pyLastSeven (l : List PriceDatedData) : List PriceDatedData :=
  l.drop (l.length - 7)

/-- The post-processing loop at the end of `get_items`
(`src/services/poe.py`): for each fetched item whose `price_info` is
present and whose `price_history` is truthy (non-`None` and non-empty),
the history is replaced by its last seven entries; other items are left
as they are. -/
def truncate_price_history (item : ItemBase) : ItemBase :=
  match item.price_info with
  | none => item
  | some price_info =>
    match price_info.price_history with
    | none => item
    | some history =>
      if history.isEmpty then item
      else
        { item with
          price_info := some { price_info with price_history := some (pyLastSeven history) } }

/-- `get_items`, reduced to its data flow over an executed query: the
projected query results are post-processed by the truncation loop and
returned together with the stored documents, which the loop does not
touch. -/
def get_items (fetched : List ItemBase) (stored : List ItemBase) :
    List ItemBase × List ItemBase :=
  (fetched.map truncate_price_history, stored)

/-! ## Validity predicates and clause characterizations for the parsers -/

/-- A raw filter token is well-formed: three `:`-separated parts, a
recognized operation, and a value of length 1–200. -/
def validFilterToken (s : String) : Bool :=
  match splitColon3 s with
  | none => false
  | some (_, op, v) =>
    decide (op ∈ FILTER_OPERATION) && decide (1 ≤ v.length) && decide (v.length ≤ 200)

/-- A raw sort token is well-formed: non-empty, starting with `-` or an
alphabetic character. -/
def validSortToken (s : String) : Bool :=
  match s.toList with
  | [] => false
  | c :: _ => decide (c = '-') || c.isAlpha

/-- The clause a well-formed filter token parses to. -/
def filterClauseOf (s : String) : FilterSchema :=
  match splitColon3 s with
  | some (f, op, v) => ⟨pyLower f, pyLower op, v⟩
  | none => ⟨"", "", ""⟩

/-- The clause a well-formed sort token parses to. -/
def sortClauseOf (s : String) : SortSchema :=
  match s.toList with
  | [] => ⟨"", ""⟩
  | c :: cs => if c = '-' then ⟨pyLower (List.asString cs), "desc"⟩ else ⟨pyLower s, "asc"⟩

/-- An eight-entry price history, for evaluating the truncation loop on
a concrete item. -/
def sampleHistory : List PriceDatedData :=
  [⟨1, 1⟩, ⟨2, 1⟩, ⟨3, 1⟩, ⟨4, 1⟩, ⟨5, 1⟩, ⟨6, 1⟩, ⟨7, 1⟩, ⟨8, 1⟩]

/-- A concrete `ItemPrice` carrying `sampleHistory`. -/
def samplePriceInfo : ItemPrice :=
  ⟨10, 0, some sampleHistory, "chaos", none, "chaos", false, 12⟩

/-- A concrete `ItemBase` carrying `samplePriceInfo`. -/
def sampleItem : ItemBase :=
  ⟨101, none, "Divine Orb", some samplePriceInfo, none, none, none, none⟩

/-! ## Helper lemmas -/

lemma pyLower_filter_op (op : String) (h : op ∈ FILTER_OPERATION) : pyLower op = op := by
  simp only [FILTER_OPERATION, List.mem_cons, List.not_mem_nil, or_false] at h
  rcases h with rfl | rfl | rfl | rfl | rfl | rfl | rfl <;> rfl

lemma parseFilterLoop_cons (qp : String) (rest : List String) (acc : List FilterSchema) :
    parseFilterLoop (qp :: rest) acc =
      match splitColon3 qp with
      | none => .error .invalidInput
      | some (field, operation, value) =>
        if operation ∈ FILTER_OPERATION then
          match mkFilterSchema field operation value with
          | none => .error .invalidInput
          | some fs => parseFilterLoop rest (fs :: acc)
        else
          .ok acc.reverse := rfl

lemma parseSortLoop_cons (qp : String) (rest : List String) (acc : List SortSchema) :
    parseSortLoop (qp :: rest) acc =
      match qp.toList with
      | [] => .error .invalidInput
      | c :: cs =>
        if c = '-' then
          parseSortLoop rest (⟨pyLower (List.asString cs), "desc"⟩ :: acc)
        else if c.isAlpha then
          parseSortLoop rest (⟨pyLower qp, "asc"⟩ :: acc)
        else
          .ok acc.reverse := rfl

lemma parseFilterLoop_allValid (qps : List String) (acc : List FilterSchema)
    (hval : ∀ s ∈ qps, validFilterToken s = true) :
    parseFilterLoop qps acc = .ok (acc.reverse ++ qps.map filterClauseOf) := by
  induction qps generalizing acc with
  | nil => simp [parseFilterLoop]
  | cons qp rest ih =>
    have hqp := hval qp (by simp)
    unfold validFilterToken at hqp
    cases hsplit : splitColon3 qp with
    | none => rw [hsplit] at hqp; simp at hqp
    | some triple =>
      obtain ⟨f, op, v⟩ := triple
      rw [hsplit] at hqp
      simp only [Bool.and_eq_true, decide_eq_true_eq] at hqp
      obtain ⟨⟨hop, hlen1⟩, hlen2⟩ := hqp
      have hmk : mkFilterSchema f op v = some ⟨pyLower f, pyLower op, v⟩ := by
        unfold mkFilterSchema
        rw [pyLower_filter_op op hop]
        simp [hop, hlen1, hlen2]
      have hclause : filterClauseOf qp = ⟨pyLower f, pyLower op, v⟩ := by
        unfold filterClauseOf
        rw [hsplit]
      have hstep : parseFilterLoop (qp :: rest) acc =
          parseFilterLoop rest (⟨pyLower f, pyLower op, v⟩ :: acc) := by
        rw [parseFilterLoop_cons, hsplit]
        simp [hop, hmk]
      rw [hstep, ih _ (fun s hs => hval s (by simp [hs]))]
      simp [hclause, List.reverse_cons, List.append_assoc]

lemma parseSortLoop_allValid (qps : List String) (acc : List SortSchema)
    (hval : ∀ s ∈ qps, validSortToken s = true) :
    parseSortLoop qps acc = .ok (acc.reverse ++ qps.map sortClauseOf) := by
  induction qps generalizing acc with
  | nil => simp [parseSortLoop]
  | cons qp rest ih =>
    have hqp := hval qp (by simp)
    unfold validSortToken at hqp
    cases hchars : qp.toList with
    | nil => rw [hchars] at hqp; simp at hqp
    | cons c cs =>
      rw [hchars] at hqp
      simp only [Bool.or_eq_true, decide_eq_true_eq] at hqp
      have hclause : sortClauseOf qp =
          if c = '-' then ⟨pyLower (List.asString cs), "desc"⟩ else ⟨pyLower qp, "asc"⟩ := by
        unfold sortClauseOf
        rw [hchars]
      by_cases hdash : c = '-'
      · have hstep : parseSortLoop (qp :: rest) acc =
            parseSortLoop rest (⟨pyLower (List.asString cs), "desc"⟩ :: acc) := by
          rw [parseSortLoop_cons, hchars]
          simp [hdash]
        rw [hstep, ih _ (fun s hs => hval s (by simp [hs]))]
        simp [hclause, hdash, List.reverse_cons, List.append_assoc]
      · have halpha : c.isAlpha = true := by
          rcases hqp with h | h
          · exact absurd h hdash
          · exact h
        have hstep : parseSortLoop (qp :: rest) acc =
            parseSortLoop rest (⟨pyLower qp, "asc"⟩ :: acc) := by
          rw [parseSortLoop_cons, hchars]
          simp [hdash, halpha]
        rw [hstep, ih _ (fun s hs => hval s (by simp [hs]))]
        simp [hclause, hdash, List.reverse_cons, List.append_assoc]

lemma math_ceil_div_eq_ceil (a b : Nat) (hb : 0 < b) :
    (math_ceil_div a b : ℤ) = ⌈(a : ℚ) / (b : ℚ)⌉ := by
  have hb' : (0 : ℚ) < (b : ℚ) := by exact_mod_cast hb
  have hdm := Nat.div_add_mod (a + b - 1) b
  have hr : (a + b - 1) % b < b := Nat.mod_lt _ hb
  unfold math_ceil_div
  set n : ℕ := (a + b - 1) / b with hn
  have h1 : a ≤ b * n := by omega
  have h2 : b * n < a + b := by omega
  have hq1 : (a : ℚ) ≤ (b : ℚ) * (n : ℚ) := by exact_mod_cast h1
  have hq2 : (b : ℚ) * (n : ℚ) < (a : ℚ) + (b : ℚ) := by exact_mod_cast h2
  have hcast : (((n : ℕ) : ℤ) : ℚ) = (n : ℚ) := by push_cast; ring
  rw [eq_comm, Int.ceil_eq_iff]
  rw [hcast]
  constructor
  · rw [lt_div_iff₀ hb']
    nlinarith [hq1, hq2]
  · rw [div_le_iff₀ hb']
    nlinarith [hq1, hq2]

lemma redisLookup_stable (r : RedisState) (t t' : Nat) (key v : String)
    (h : redisLookup r t key = some v) (h' : redisLookup r t' key ≠ none) :
    redisLookup r t' key = some v := by
  unfold redisLookup at h h' ⊢
  cases hf : r.entries.find? (fun e => e.key = key) with
  | none => simp_all
  | some e =>
    cases he : e.expireAt with
    | none => simp_all
    | some T =>
      by_cases ht' : t' < T
      · by_cases ht : t < T
        · simp_all
        · simp_all
      · simp_all

lemma redisLookup_cons_self (key s : String) (expAt : Option Nat)
    (rest : List RedisEntry) (fl : Option String) (t : Nat)
    (h : redisLookup ⟨⟨key, s, expAt⟩ :: rest, fl⟩ t key ≠ none) :
    redisLookup ⟨⟨key, s, expAt⟩ :: rest, fl⟩ t key = some s := by
  unfold redisLookup at h ⊢
  rw [List.find?_cons_of_pos] at h ⊢
  · cases expAt with
    | none => rfl
    | some T =>
      by_cases ht : t < T
      · simp [ht]
      · simp [ht] at h
  · simp
  · simp

lemma goc_hit (redis_key : String) (ef : Option EntityData) (rk : Option String)
    (exp : Option Nat) (st : RedisState) (t : Nat) (resp : Option BaseResponse)
    (payload : String) (hfail : st.fail = none)
    (hlk : redisLookup st t redis_key = some payload) :
    get_or_cache_serialized_entity redis_key ef rk exp st t resp =
      .ok ⟨payload, st, false⟩ := by
  unfold get_or_cache_serialized_entity get_cached_data redis_get
  rw [hfail, hlk]

/-! ## Claim theorems -/

/-- C1: the claim states that any malformed filter token (wrong part
count, unrecognized operation, or bad value length) fails the entire
batch and a partial clause list is never returned.  The code violates
this for the unrecognized-operation case: the `break` after setting
`valid_params = False` skips the in-loop `raise`, so
`parse_filter_input` returns the clauses accumulated so far.  On input
`["name:=:foo", "age:!:30"]` the unrecognized operation `"!"` yields the
partial list `[{field:"name", op:"=", value:"foo"}]` with no error,
while a wrong part count (`"name:="`) and an empty value (`"name:=:"`)
do fail the batch as claimed. -/
theorem parse_filter_input_partial_batch_on_unrecognized_operation :
    parse_filter_input (some ["name:=:foo", "age:!:30"]) =
      .ok (some [⟨"name", "=", "foo"⟩]) ∧
    parse_filter_input (some ["name:="]) = .error .invalidInput ∧
    parse_filter_input (some ["name:=:"]) = .error .invalidInput :=
  ⟨rfl, rfl, rfl⟩

/-- C2 (counterexample): the claim asserts that
`NESTED_FILTER_OPERATION_MAP` omits `=`/`!=` and has no `$eq`; in fact
the map contains `("=", "$eq")`, and `_build_nested_query` translates an
equality clause on a nested field into a `$eq` comparison against
`Decimal128(value)` instead of failing. -/
theorem nested_filter_map_contains_eq :
    NESTED_FILTER_OPERATION_MAP.lookup "=" = some "$eq" ∧
    _build_nested_query ⟨"price_info.chaos_price", "=", "12"⟩ =
      some ("price_info.chaos_price", [("$eq", .dec128 "12")]) :=
  ⟨rfl, rfl⟩

/-- C2 (amended): for a nested-field clause, the operations `=`, `>`,
`>=`, `<`, `<=` are translated through `NESTED_FILTER_OPERATION_MAP`
with the clause's string value converted to `Decimal128`; `like` becomes
a case-insensitive regex on the string value directly; only `!=` is
unsupported (it is absent from the map, so the lookup raises
`KeyError`). -/
theorem build_nested_query_spec (f v : String) :
    _build_nested_query ⟨f, "=", v⟩ = some (f, [("$eq", .dec128 v)]) ∧
    _build_nested_query ⟨f, ">", v⟩ = some (f, [("$gt", .dec128 v)]) ∧
    _build_nested_query ⟨f, ">=", v⟩ = some (f, [("$gte", .dec128 v)]) ∧
    _build_nested_query ⟨f, "<", v⟩ = some (f, [("$lt", .dec128 v)]) ∧
    _build_nested_query ⟨f, "<=", v⟩ = some (f, [("$lte", .dec128 v)]) ∧
    _build_nested_query ⟨f, "like", v⟩ =
      some (f, [("$regex", .str v), ("$options", .str "i")]) ∧
    _build_nested_query ⟨f, "!=", v⟩ = none :=
  ⟨rfl, rfl, rfl, rfl, rfl, rfl, rfl⟩

/-- C6: the claim states a leading `-` gives a descending clause on the
rest of the token, a leading alphabetic character gives an ascending
clause on the whole token, and any other leading character fails the
whole sort batch.  The first two conjuncts hold, but an invalid leading
character does not fail the batch: the `break` after
`valid_params = False` skips the in-loop `raise`, so on
`["price", "1price"]` the token `"1price"` silently truncates the batch
to the partial list `[{field:"price", op:"asc"}]` instead of raising. -/
theorem parse_sort_input_partial_batch_on_invalid_leading_char :
    parse_sort_input (some ["-price"]) = .ok (some [⟨"price", "desc"⟩]) ∧
    parse_sort_input (some ["price"]) = .ok (some [⟨"price", "asc"⟩]) ∧
    parse_sort_input (some ["price", "1price"]) = .ok (some [⟨"price", "asc"⟩]) :=
  ⟨rfl, rfl, rfl⟩

/-- C7: pagination math.  `total_pages` equals the exact ceiling of
`total_items / per_page` whenever `per_page > 0` (in particular `0`
items give `0` pages and `101` items at `10` per page give `11` pages),
the `offset` computed field is `(page - 1) * per_page`, and a `per_page`
exceeding `MAXIMUM_ITEMS_PER_PAGE` fails query-parameter validation
instead of being clamped. -/
theorem create_pagination_response_spec (data : Json) (data_key : String)
    (total_items : Nat) (p : PaginationInput) (hpp : 0 < p.per_page) :
    (((create_pagination_response data total_items p data_key).1.total_pages : ℤ) =
      ⌈(total_items : ℚ) / (p.per_page : ℚ)⌉) ∧
    (create_pagination_response data 0 p data_key).1.total_pages = 0 ∧
    (create_pagination_response data 101 ⟨1, 10⟩ data_key).1.total_pages = 11 ∧
    p.offset = (p.page - 1) * p.per_page ∧
    (∀ page per_page : Nat, MAXIMUM_ITEMS_PER_PAGE < per_page →
      mkPaginationInput page per_page = none) := by
  refine ⟨math_ceil_div_eq_ceil total_items p.per_page hpp, ?_, rfl, rfl, ?_⟩
  · show math_ceil_div 0 p.per_page = 0
    unfold math_ceil_div
    exact Nat.div_eq_of_lt (by omega)
  · intro page per_page h
    unfold mkPaginationInput
    rw [if_neg]
    omega

/-- C7 witness: the pagination theorem applied at `total_items = 101`,
`page = 1`, `per_page = 10`, with the validation conjunct instantiated
at `per_page = 501`. -/
theorem create_pagination_response_spec_witness :
    (((create_pagination_response .null 101 ⟨1, 10⟩ "items").1.total_pages : ℤ) =
      ⌈(101 : ℚ) / (10 : ℚ)⌉) ∧
    (create_pagination_response .null 0 ⟨1, 10⟩ "items").1.total_pages = 0 ∧
    PaginationInput.offset ⟨1, 10⟩ = 0 ∧
    mkPaginationInput 1 501 = none := by
  have h := create_pagination_response_spec .null "items" 101 ⟨1, 10⟩ (by decide)
  exact ⟨by exact_mod_cast h.1, h.2.1, h.2.2.2.1, h.2.2.2.2 1 501 (by decide)⟩

/-- C8 (counterexample): the claim states that a present (non-`None`)
token list never parses to an empty clause list — parsing either yields
at least one clause or fails.  But the sort batch `["1price"]` is
present and parses to `.ok (some [])`: the invalid leading digit takes
the `break` path, returning the empty partial accumulator with no
error.  A present-but-empty filter list likewise returns an empty
clause list. -/
theorem parse_present_input_can_yield_empty_clause_list :
    parse_sort_input (some ["1price"]) = .ok (some []) ∧
    parse_filter_input (some []) = .ok (some []) :=
  ⟨rfl, rfl⟩

/-- C8 (amended): absent (`None`) filter/sort input parses to `None`,
meaning default behavior; and for a present list of well-formed tokens
parsing yields exactly one clause per token — in particular at least one
clause whenever the token list is non-empty.  (For an empty or
malformed present list the code can return an empty or partial clause
list, per the counterexample.) -/
theorem parse_input_none_and_valid_tokens (filter_tokens sort_tokens : List String)
    (hf : ∀ s ∈ filter_tokens, validFilterToken s = true)
    (hs : ∀ s ∈ sort_tokens, validSortToken s = true) :
    parse_filter_input none = .ok none ∧
    parse_sort_input none = .ok none ∧
    parse_filter_input (some filter_tokens) =
      .ok (some (filter_tokens.map filterClauseOf)) ∧
    parse_sort_input (some sort_tokens) = .ok (some (sort_tokens.map sortClauseOf)) ∧
    (filter_tokens.map filterClauseOf).length = filter_tokens.length ∧
    (sort_tokens.map sortClauseOf).length = sort_tokens.length := by
  refine ⟨rfl, rfl, ?_, ?_, by simp, by simp⟩
  · show Except.map some (parseFilterLoop filter_tokens []) =
      .ok (some (filter_tokens.map filterClauseOf))
    rw [parseFilterLoop_allValid filter_tokens [] hf]
    simp [Except.map]
  · show Except.map some (parseSortLoop sort_tokens []) =
      .ok (some (sort_tokens.map sortClauseOf))
    rw [parseSortLoop_allValid sort_tokens [] hs]
    simp [Except.map]

/-- C8 witness: the amended parsing theorem applied to the concrete
well-formed batches `["category:=:currency"]` and `["-price"]`. -/
theorem parse_input_none_and_valid_tokens_witness :
    parse_filter_input (some ["category:=:currency"]) =
      .ok (some (["category:=:currency"].map filterClauseOf)) ∧
    parse_sort_input (some ["-price"]) = .ok (some (["-price"].map sortClauseOf)) := by
  have h := parse_input_none_and_valid_tokens ["category:=:currency"] ["-price"]
    (by decide) (by decide)
  exact ⟨h.2.2.1, h.2.2.2.1⟩

/-- C3: cache-aside idempotence of `get_or_cache_serialized_entity`.
If a first call returns outcome `o1` and the entry under `redis_key` is
still unexpired at the time `t2` of a second call on the resulting
cache state, then the second call returns the byte-identical payload
`o1.payload`, leaves the cache unchanged, and does not await the
compute function (`computeAwaited = false`); moreover
`serialize_response` applied to a bytes payload returns it unchanged,
so a hit involves no re-serialization. -/
theorem get_or_cache_serialized_entity_idempotent (redis_key : String)
    (ef : Option EntityData) (rk : Option String) (exp : Option Nat)
    (r : RedisState) (t1 t2 : Nat) (resp : Option BaseResponse) (o1 : GocOutcome)
    (h1 : get_or_cache_serialized_entity redis_key ef rk exp r t1 resp = .ok o1)
    (halive : redisLookup o1.state t2 redis_key ≠ none) :
    get_or_cache_serialized_entity redis_key ef rk exp o1.state t2 resp =
      .ok ⟨o1.payload, o1.state, false⟩ ∧
    serialize_response (.bytes o1.payload) = o1.payload := by
  refine ⟨?_, rfl⟩
  cases hfail : r.fail with
  | some m =>
    simp [get_or_cache_serialized_entity, get_cached_data, redis_get, hfail] at h1
  | none =>
    cases hlk : redisLookup r t1 redis_key with
    | some c =>
      have ho : GocOutcome.mk c r false = o1 := by
        simpa [get_or_cache_serialized_entity, get_cached_data, redis_get, hfail, hlk]
          using h1
      subst ho
      exact goc_hit redis_key ef rk exp r t2 resp c hfail
        (redisLookup_stable r t1 t2 redis_key c hlk halive)
    | none =>
      cases resp with
      | some rp =>
        have ho : GocOutcome.mk (serialize_response (.response rp))
            ⟨⟨redis_key, serialize_response (.response rp),
               exp.map (fun n => t1 + n)⟩ ::
               r.entries.filter (fun e => e.key ≠ redis_key), none⟩ false = o1 := by
          simpa [get_or_cache_serialized_entity, get_cached_data, redis_get, hfail, hlk,
            cache_data, redis_set] using h1
        subst ho
        exact goc_hit redis_key ef rk exp _ t2 (some rp) _ rfl
          (redisLookup_cons_self redis_key (serialize_response (.response rp))
            (exp.map (fun n => t1 + n))
            (r.entries.filter (fun e => e.key ≠ redis_key)) none t2 halive)
      | none =>
        cases ef with
        | none =>
          simp [get_or_cache_serialized_entity, get_cached_data, redis_get, hfail, hlk]
            at h1
        | some entityData =>
          cases entityData with
          | resp br =>
            have ho : GocOutcome.mk (serialize_response (.response br))
                ⟨⟨redis_key, serialize_response (.response br),
                   exp.map (fun n => t1 + n)⟩ ::
                   r.entries.filter (fun e => e.key ≠ redis_key), none⟩ true = o1 := by
              simpa [get_or_cache_serialized_entity, get_cached_data, redis_get, hfail,
                hlk, cache_data, redis_set] using h1
            subst ho
            exact goc_hit redis_key (some (.resp br)) rk exp _ t2 none _ rfl
              (redisLookup_cons_self redis_key (serialize_response (.response br))
                (exp.map (fun n => t1 + n))
                (r.entries.filter (fun e => e.key ≠ redis_key)) none t2 halive)
          | raw j =>
            have ho : GocOutcome.mk (serialize_response (.response ⟨j, none, rk⟩))
                ⟨⟨redis_key, serialize_response (.response ⟨j, none, rk⟩),
                   exp.map (fun n => t1 + n)⟩ ::
                   r.entries.filter (fun e => e.key ≠ redis_key), none⟩ true = o1 := by
              simpa [get_or_cache_serialized_entity, get_cached_data, redis_get, hfail,
                hlk, cache_data, redis_set] using h1
            subst ho
            exact goc_hit redis_key (some (.raw j)) rk exp _ t2 none _ rfl
              (redisLookup_cons_self redis_key
                (serialize_response (.response ⟨j, none, rk⟩))
                (exp.map (fun n => t1 + n))
                (r.entries.filter (fun e => e.key ≠ redis_key)) none t2 halive)

/-- C3 witness: the idempotence theorem applied to a concrete one-entry
cache state hit at time 5 after a first call at time 0. -/
theorem get_or_cache_serialized_entity_idempotent_witness :
    get_or_cache_serialized_entity "users:1" none none none
      ⟨[⟨"users:1", "payload", none⟩], none⟩ 5 none =
      .ok ⟨"payload", ⟨[⟨"users:1", "payload", none⟩], none⟩, false⟩ ∧
    serialize_response (.bytes "payload") = "payload" :=
  get_or_cache_serialized_entity_idempotent "users:1" none none none
    ⟨[⟨"users:1", "payload", none⟩], none⟩ 0 5 none
    ⟨"payload", ⟨[⟨"users:1", "payload", none⟩], none⟩, false⟩ rfl (by decide)

/-- C4 (counterexample): the claim states that after the update-user
endpoint completes, the cached single-entity key is absent and the next
read is a forced miss.  In fact `update_user` never deletes the key: it
re-caches the freshly serialized user under `users:<id>`, so
immediately after the update the key is present (`redisLookup` is not
`none`). -/
theorem update_user_cache_key_present_after_update :
    update_user_cache_step "42" .null ⟨[], none⟩ 0 =
      .ok ⟨[⟨"users:42", serialize_response (.response ⟨.null, none, none⟩),
             some SINGLE_USER_CACHE_DURATION⟩], none⟩ ∧
    redisLookup ⟨[⟨"users:42", serialize_response (.response ⟨.null, none, none⟩),
                   some SINGLE_USER_CACHE_DURATION⟩], none⟩ 0 "users:42" ≠ none := by
  refine ⟨rfl, fun hcontra => ?_⟩
  rw [show redisLookup ⟨[⟨"users:42",
        serialize_response (.response ⟨.null, none, none⟩),
        some SINGLE_USER_CACHE_DURATION⟩], none⟩ 0 "users:42" =
      some (serialize_response (.response ⟨.null, none, none⟩)) from rfl] at hcontra
  cases hcontra

/-- C4 (amended): after the `update_user` endpoint completes for user
`X`, the single-entity cache key `users:<X>` is not absent but
overwritten: it holds the freshly serialized updated payload with the
single-user TTL, so every read before expiry is a cache hit returning
the new payload (the old payload can never be served), and reads after
expiry miss. -/
theorem update_user_cache_step_overwrites (user_id : String) (user_base : Json)
    (r : RedisState) (now : Nat) (hfail : r.fail = none) :
    update_user_cache_step user_id user_base r now =
      .ok ⟨⟨USER_CACHE_KEY ++ ":" ++ user_id,
            serialize_response (.response ⟨user_base, none, none⟩),
            some (now + SINGLE_USER_CACHE_DURATION)⟩ ::
           r.entries.filter (fun e => e.key ≠ USER_CACHE_KEY ++ ":" ++ user_id),
           none⟩ ∧
    (∀ t, t < now + SINGLE_USER_CACHE_DURATION →
      redisLookup ⟨⟨USER_CACHE_KEY ++ ":" ++ user_id,
            serialize_response (.response ⟨user_base, none, none⟩),
            some (now + SINGLE_USER_CACHE_DURATION)⟩ ::
           r.entries.filter (fun e => e.key ≠ USER_CACHE_KEY ++ ":" ++ user_id),
           none⟩ t (USER_CACHE_KEY ++ ":" ++ user_id) =
        some (serialize_response (.response ⟨user_base, none, none⟩))) ∧
    (∀ t, now + SINGLE_USER_CACHE_DURATION ≤ t →
      redisLookup ⟨⟨USER_CACHE_KEY ++ ":" ++ user_id,
            serialize_response (.response ⟨user_base, none, none⟩),
            some (now + SINGLE_USER_CACHE_DURATION)⟩ ::
           r.entries.filter (fun e => e.key ≠ USER_CACHE_KEY ++ ":" ++ user_id),
           none⟩ t (USER_CACHE_KEY ++ ":" ++ user_id) = none) := by
  refine ⟨?_, ?_, ?_⟩
  · unfold update_user_cache_step cache_data redis_set
    rw [hfail]
    rfl
  · intro t ht
    unfold redisLookup
    rw [List.find?_cons_of_pos]
    · simp [ht]
    · simp
  · intro t ht
    unfold redisLookup
    rw [List.find?_cons_of_pos]
    · simp [Nat.not_lt.mpr ht]
    · simp

/-- C4 witness: the overwrite theorem applied to user id `7` on an
empty healthy cache at time 0, read back at time 10 and at expiry. -/
theorem update_user_cache_step_overwrites_witness :
    update_user_cache_step "7" (.str "alice") ⟨[], none⟩ 0 =
      .ok ⟨[⟨"users:7", serialize_response (.response ⟨.str "alice", none, none⟩),
             some (0 + SINGLE_USER_CACHE_DURATION)⟩], none⟩ ∧
    redisLookup ⟨[⟨"users:7", serialize_response (.response ⟨.str "alice", none, none⟩),
                   some (0 + SINGLE_USER_CACHE_DURATION)⟩], none⟩ 10 "users:7" =
      some (serialize_response (.response ⟨.str "alice", none, none⟩)) ∧
    redisLookup ⟨[⟨"users:7", serialize_response (.response ⟨.str "alice", none, none⟩),
                   some (0 + SINGLE_USER_CACHE_DURATION)⟩], none⟩
      (0 + SINGLE_USER_CACHE_DURATION) "users:7" = none := by
  have h := update_user_cache_step_overwrites "7" (.str "alice") ⟨[], none⟩ 0 rfl
  exact ⟨h.1, h.2.1 10 (by decide), h.2.2 (0 + SINGLE_USER_CACHE_DURATION) (by omega)⟩

/-- C5: in the `delete_user` endpoint's transaction block, a failing
cache-key deletion aborts the multi-document transaction and re-raises
the same error: the database state (users and token blacklist) is
returned unchanged, so the primary-store deletion does not commit. -/
theorem delete_user_endpoint_aborts_on_cache_error (user_id access_token : String)
    (db : DbState) (r : RedisState) (m : String) (hfail : r.fail = some m) :
    delete_user_endpoint user_id access_token db r = (db, r, some m) := by
  unfold delete_user_endpoint delete_cached_data redis_del
  rw [hfail]

/-- C5 witness: the abort theorem applied to a store containing user
`9` and a cache whose transport fails with `connection refused`. -/
theorem delete_user_endpoint_aborts_on_cache_error_witness :
    delete_user_endpoint "9" "token9" ⟨["9"], []⟩ ⟨[], some "connection refused"⟩ =
      (⟨["9"], []⟩, ⟨[], some "connection refused"⟩, some "connection refused") :=
  delete_user_endpoint_aborts_on_cache_error "9" "token9" ⟨["9"], []⟩
    ⟨[], some "connection refused"⟩ "connection refused" rfl

/-- C9: every cache I/O wrapper (`cache_data`, `get_cached_data`,
`delete_cached_data`) that encounters a cache-transport error logs the
failing operation and re-raises the same error to the caller: none of
them swallows the error or returns a value, and a failed read never
yields cached data. -/
theorem cache_io_errors_logged_and_reraised (key data : String) (exp : Option Nat)
    (r : RedisState) (now : Nat) (m : String) (hfail : r.fail = some m) :
    cache_data key data exp r now =
      (.error m, ["error setting data in cache: " ++ m]) ∧
    get_cached_data key r now = (.error m, ["error getting cached data: " ++ m]) ∧
    delete_cached_data key r = (.error m, ["error deleting cached data: " ++ m]) := by
  unfold cache_data get_cached_data delete_cached_data redis_set redis_get redis_del
  rw [hfail]
  exact ⟨rfl, rfl, rfl⟩

/-- C9 witness: the error-propagation theorem applied to a cache whose
transport fails with `timeout`. -/
theorem cache_io_errors_logged_and_reraised_witness :
    cache_data "users" "bytes" (some 300) ⟨[], some "timeout"⟩ 0 =
      (.error "timeout", ["error setting data in cache: timeout"]) ∧
    get_cached_data "users" ⟨[], some "timeout"⟩ 0 =
      (.error "timeout", ["error getting cached data: timeout"]) ∧
    delete_cached_data "users" ⟨[], some "timeout"⟩ =
      (.error "timeout", ["error deleting cached data: timeout"]) :=
  cache_io_errors_logged_and_reraised "users" "bytes" (some 300) ⟨[], some "timeout"⟩
    0 "timeout" rfl

/-- C10: `get_items` leaves the stored documents untouched and maps the
truncation loop over the fetched projections; an item with no
`price_info`, a `None` history, or a history of at most seven entries
is returned unchanged, and in general the returned history is the
at-most-seven-entry suffix (the last seven entries) of the stored
history. -/
theorem get_items_price_history_truncation (fetched stored : List ItemBase) (i : Nat) :
    (get_items fetched stored).2 = stored ∧
    ((get_items fetched stored).1)[i]? = (fetched[i]?).map truncate_price_history ∧
    (∀ item : ItemBase, item.price_info = none → truncate_price_history item = item) ∧
    (∀ (item : ItemBase) (price_info : ItemPrice), item.price_info = some price_info →
      price_info.price_history = none → truncate_price_history item = item) ∧
    (∀ (item : ItemBase) (price_info : ItemPrice) (h : List PriceDatedData),
      item.price_info = some price_info → price_info.price_history = some h →
      h.length ≤ 7 → truncate_price_history item = item) ∧
    (∀ (item : ItemBase) (price_info : ItemPrice) (h : List PriceDatedData),
      item.price_info = some price_info → price_info.price_history = some h →
      truncate_price_history item =
        { item with
          price_info := some ({ price_info with
            price_history := some (h.drop (h.length - 7)) }) } ∧
      (h.drop (h.length - 7)).length ≤ 7 ∧
      (h.drop (h.length - 7)).IsSuffix h) := by
  refine ⟨rfl, by simp [get_items, List.getElem?_map], ?_, ?_, ?_, ?_⟩
  · intro item hnone
    obtain ⟨a1, a2, a3, pinfo, a5, a6, a7, a8⟩ := item
    obtain rfl : pinfo = none := hnone
    rfl
  · intro item price_info hpi hnone
    obtain ⟨a1, a2, a3, pinfo, a5, a6, a7, a8⟩ := item
    obtain rfl : pinfo = some price_info := hpi
    obtain ⟨b1, b2, ph, b4, b5, b6, b7, b8⟩ := price_info
    obtain rfl : ph = none := hnone
    rfl
  · intro item price_info h hpi hh hlen
    obtain ⟨a1, a2, a3, pinfo, a5, a6, a7, a8⟩ := item
    obtain rfl : pinfo = some price_info := hpi
    obtain ⟨b1, b2, ph, b4, b5, b6, b7, b8⟩ := price_info
    obtain rfl : ph = some h := hh
    have hseven : pyLastSeven h = h := by
      unfold pyLastSeven
      rw [Nat.sub_eq_zero_of_le hlen, List.drop_zero]
    simp [truncate_price_history, hseven]
  · intro item price_info h hpi hh
    refine ⟨?_, ?_, List.drop_suffix _ _⟩
    · obtain ⟨a1, a2, a3, pinfo, a5, a6, a7, a8⟩ := item
      obtain rfl : pinfo = some price_info := hpi
      obtain ⟨b1, b2, ph, b4, b5, b6, b7, b8⟩ := price_info
      obtain rfl : ph = some h := hh
      by_cases hemp : h.isEmpty
      · have hnil : h = [] := by simpa [List.isEmpty_iff] using hemp
        subst hnil
        simp [truncate_price_history, pyLastSeven]
      · simp [truncate_price_history, pyLastSeven, hemp]
    · rw [List.length_drop]
      omega

/-- C10 witness: the truncation theorem applied to a concrete item with
an eight-entry price history, which is cut down to its last seven
entries. -/
theorem get_items_price_history_truncation_witness :
    truncate_price_history sampleItem =
      { sampleItem with
        price_info := some ({ samplePriceInfo with
          price_history := some (sampleHistory.drop (sampleHistory.length - 7)) }) } ∧
    (sampleHistory.drop (sampleHistory.length - 7)).length ≤ 7 ∧
    (sampleHistory.drop (sampleHistory.length - 7)).IsSuffix sampleHistory := by
  have h := get_items_price_history_truncation [sampleItem] [] 0
  exact h.2.2.2.2.2 sampleItem samplePriceInfo sampleHistory rfl rfl

end BackendBurger
